import Mathlib

/-!
Verification of the Grbl_Esp32 pin abstraction layer
(`src/Grbl_Esp32/src/Pins/GPIOPinDetail.cpp`).

The C++ class `GPIOPinDetail` is embedded shallowly: its mutable fields
become a Lean structure, its fallible methods (which `Assert` and throw)
become functions into `Except PinError _`, and the hardware side effects
(`__digitalWrite`, `__pinMode`) are made explicit in the return value as a
`SetAttrEffect` record (for `setAttr`) or the driven level (for `write`).
The flag-set types `PinCapabilities` and `PinAttributes` are records of
booleans, one per flag of the bitmask in the C++ source.

The helper methods `PinAttributes.validateWith` and
`PinAttributes.conflictsWith`, and the option parser, live in repository
files that are not part of the snapshot; they are modelled from the
specification text, as marked in their doc comments.
-/

namespace Pins

/-- The `PinCapabilities` bitmask: one boolean per feature flag
{Native, Input, Output, PullUp, PullDown, ADC, DAC, PWM, ISR, UART}.
`PinCapabilities.noCaps` (all flags clear) plays the role of
`PinCapabilities::None`. -/
structure PinCapabilities where
  native : Bool
  input : Bool
  output : Bool
  pullUp : Bool
  pullDown : Bool
  adc : Bool
  dac : Bool
  pwm : Bool
  isr : Bool
  uart : Bool
deriving DecidableEq, Repr

/-- `PinCapabilities::None`: no flag set. -/
def PinCapabilities.noCaps : PinCapabilities :=
  { native := false, input := false, output := false, pullUp := false, pullDown := false,
    adc := false, dac := false, pwm := false, isr := false, uart := false }

/-- The `PinAttributes` bitmask: one boolean per usage flag
{Input, Output, PullUp, PullDown, ActiveLow, InitialOn, ISR}.
`PinAttributes.noAttrs` (all flags clear) plays the role of
`PinAttributes::None`. -/
structure PinAttributes where
  input : Bool
  output : Bool
  pullUp : Bool
  pullDown : Bool
  activeLow : Bool
  initialOn : Bool
  isr : Bool
deriving DecidableEq, Repr

/-- `PinAttributes::None`: no flag set. -/
def PinAttributes.noAttrs : PinAttributes :=
  { input := false, output := false, pullUp := false, pullDown := false,
    activeLow := false, initialOn := false, isr := false }

/-- `GPIOPinDetail::GetDefaultCapabilities`: the static capability table,
transcribed case for case from the `switch` in the C++ source (the `switch`
on integer literals becomes a chain of equality tests; the `default` branch
returns `PinCapabilities::None`). -/
def GetDefaultCapabilities (index : Nat) : PinCapabilities :=
  if index = 0 then
    { native := true, input := true, output := true, pullUp := true, pullDown := true,
      adc := true, dac := false, pwm := true, isr := true, uart := true }
  else if index = 1 then
    { native := true, input := true, output := true, pullUp := false, pullDown := false,
      adc := false, dac := false, pwm := false, isr := false, uart := true }
  else if index = 3 then
    { native := true, input := true, output := true, pullUp := false, pullDown := false,
      adc := false, dac := false, pwm := false, isr := true, uart := true }
  else if index = 5 ∨ index = 16 ∨ index = 17 ∨ index = 18 ∨ index = 19 ∨ index = 21 ∨
          index = 22 ∨ index = 23 ∨ index = 29 then
    { native := true, input := true, output := true, pullUp := true, pullDown := true,
      adc := false, dac := false, pwm := true, isr := true, uart := true }
  else if index = 2 ∨ index = 4 ∨ index = 12 ∨ index = 13 ∨ index = 14 ∨ index = 15 ∨
          index = 27 ∨ index = 32 ∨ index = 33 then
    { native := true, input := true, output := true, pullUp := true, pullDown := true,
      adc := true, dac := false, pwm := true, isr := true, uart := true }
  else if index = 25 ∨ index = 26 then
    { native := true, input := true, output := true, pullUp := true, pullDown := true,
      adc := true, dac := true, pwm := true, isr := true, uart := true }
  else if index = 6 ∨ index = 7 ∨ index = 8 ∨ index = 9 ∨ index = 10 ∨ index = 11 then
    { native := true, input := true, output := true, pullUp := false, pullDown := false,
      adc := false, dac := false, pwm := true, isr := true, uart := true }
  else if index = 34 ∨ index = 35 ∨ index = 36 ∨ index = 39 then
    { native := true, input := true, output := false, pullUp := false, pullDown := false,
      adc := true, dac := false, pwm := false, isr := true, uart := true }
  else
    PinCapabilities.noCaps

/-- The two error kinds of the layer: `Assert` failures at construction time
are `configurationError`, `Assert` failures in the runtime methods are
`attributeError` (spec section 7). -/
inductive PinError where
  | configurationError (msg : String)
  | attributeError (msg : String)
deriving DecidableEq, Repr

/-- Decidable equality for `Except`, so counterexample and witness
statements about method results can be settled by `decide`. -/
instance instDecidableEqExcept {ε α : Type} [DecidableEq ε] [DecidableEq α] :
    DecidableEq (Except ε α) := fun x y =>
  match x, y with
  | Except.ok a, Except.ok b =>
    if h : a = b then Decidable.isTrue (by rw [h])
    else Decidable.isFalse (by intro he; cases he; exact h rfl)
  | Except.ok _, Except.error _ => Decidable.isFalse (by intro he; cases he)
  | Except.error _, Except.ok _ => Decidable.isFalse (by intro he; cases he)
  | Except.error e, Except.error f =>
    if h : e = f then Decidable.isTrue (by rw [h])
    else Decidable.isFalse (by intro he; cases he; exact h rfl)

/-- Modelled from the spec: `PinAttributes::validateWith` lives in
`PinAttributes.cpp`, which is not in the repository snapshot.  The spec says
`setAttr` must "Reject (capability violation) unless every flag in
`requested` is present in `capabilities()`".  The flags that exist in both
bitmasks are Input, Output, PullUp, PullDown and ISR; ActiveLow and
InitialOn have no capability counterpart and are therefore unconstrained. -/
def PinAttributes.validateWith (a : PinAttributes) (c : PinCapabilities) : Bool :=
  (!a.input || c.input) && (!a.output || c.output) && (!a.pullUp || c.pullUp) &&
  (!a.pullDown || c.pullDown) && (!a.isr || c.isr)

/-- Modelled from the spec: `PinAttributes::conflictsWith` lives in
`PinAttributes.cpp`, which is not in the repository snapshot.  The spec says
"at minimum, Input-vs-Output and PullUp-vs-PullDown are mutually exclusive
pairs", symmetrically. -/
def PinAttributes.conflictsWith (a t : PinAttributes) : Bool :=
  (a.input && t.output) || (a.output && t.input) ||
  (a.pullUp && t.pullDown) || (a.pullDown && t.pullUp)

/-- Arduino `LOW`. -/
def LOW : Nat := 0

/-- Arduino `HIGH`. -/
def HIGH : Nat := 1

/-- Arduino ESP32 core `INPUT` pin-mode bit. -/
def INPUT : Nat := 1

/-- Arduino ESP32 core `OUTPUT` pin-mode bit. -/
def OUTPUT : Nat := 3

/-- Arduino ESP32 core `PULLUP` pin-mode bit. -/
def PULLUP : Nat := 4

/-- Arduino ESP32 core `PULLDOWN` pin-mode bit. -/
def PULLDOWN : Nat := 8

/-- The option-folding loop of the `GPIOPinDetail` constructor: for each
token, `pu` sets PullUp, `pd` sets PullDown, `low` sets ActiveLow, `high` is
an explicit no-op, and anything else fails the
`Assert(false, "Bad GPIO option passed to pin %d: %s", ...)`.  Tokens are
modelled as the list of strings the `PinOptionsParser` enumerates, with
`opt.is(...)` as string equality (the spec: "an exact-match predicate"). -/
def foldOptions (index : Nat) (attrs : PinAttributes) : List String → Except PinError PinAttributes
  | [] => Except.ok attrs
  | opt :: rest =>
    if opt = "pu" then foldOptions index { attrs with pullUp := true } rest
    else if opt = "pd" then foldOptions index { attrs with pullDown := true } rest
    else if opt = "low" then foldOptions index { attrs with activeLow := true } rest
    else if opt = "high" then foldOptions index attrs rest
    else Except.error (PinError.configurationError
      ("Bad GPIO option passed to pin " ++ toString index ++ ": " ++ opt))

/-- The fields of `GPIOPinDetail` (`_index`, `_capabilities`, `_attributes`,
`_currentMode`, `_readWriteMask`). -/
structure GPIOPinDetail where
  index : Nat
  capabilities : PinCapabilities
  attributes : PinAttributes
  currentMode : PinAttributes
  readWriteMask : Nat
deriving DecidableEq, Repr

/-- The `GPIOPinDetail` constructor: initialise the fields, assert
`_capabilities != PinCapabilities::None` with message "Bad GPIO number",
fold the option tokens, then set `_readWriteMask` to `HIGH` when ActiveLow
was requested and `LOW` otherwise.  A thrown `Assert` becomes an `error`
return, so no pin value is produced on failure. -/
def GPIOPinDetail.construct (index : Nat) (options : List String) : Except PinError GPIOPinDetail :=
  let caps := GetDefaultCapabilities index
  if caps = PinCapabilities.noCaps then
    Except.error (PinError.configurationError "Bad GPIO number")
  else
    match foldOptions index PinAttributes.noAttrs options with
    | Except.error e => Except.error e
    | Except.ok attrs =>
      Except.ok { index := index, capabilities := caps, attributes := attrs,
                  currentMode := PinAttributes.noAttrs,
                  readWriteMask := if attrs.activeLow then HIGH else LOW }

/-- `GPIOPinDetail::write`: assert that `_currentMode` has the Output
attribute, then drive the physical line to `_readWriteMask ^ high`.  The
driven physical level is returned as the `ok` value. -/
def GPIOPinDetail.write (s : GPIOPinDetail) (high : Nat) : Except PinError Nat :=
  if s.currentMode.output then
    Except.ok (s.readWriteMask ^^^ high)
  else
    Except.error (PinError.attributeError
      "Pin has no output attribute defined. Cannot write to it.")

/-- `GPIOPinDetail::read`: given the raw physical level returned by
`__digitalRead`, return `raw ^ _readWriteMask`. -/
def GPIOPinDetail.read (s : GPIOPinDetail) (raw : Nat) : Nat :=
  raw ^^^ s.readWriteMask

/-- The hardware side effects of one successful `setAttr` call:
`digitalWriteLevel` is `some l` when `__digitalWrite(_index, l)` was issued
(only when Output is selected) and `pinModeValue` is the argument of the
final `__pinMode(_index, pinModeValue)` call. -/
structure SetAttrEffect where
  digitalWriteLevel : Option Nat
  pinModeValue : Nat
deriving DecidableEq, Repr

/-- The `pinModeValue` local of `GPIOPinDetail::setAttr`: starts at 0, ors
in `INPUT` when the requested set has Input, else `OUTPUT` when it has
Output; then ors in `PULLUP` when either the accumulated attributes or the
requested ones have PullUp, else `PULLDOWN` under the analogous
disjunction. -/
def pinModeValueOf (attrs value : PinAttributes) : Nat :=
  let dir : Nat := if value.input then 0 ||| INPUT
                   else if value.output then 0 ||| OUTPUT
                   else 0
  if attrs.pullUp || value.pullUp then dir ||| PULLUP
  else if attrs.pullDown || value.pullDown then dir ||| PULLDOWN
  else dir

/-- The `__digitalWrite` issued by `GPIOPinDetail::setAttr` when the
requested set has Output: level `HIGH ^ mask` when InitialOn is present,
else `LOW ^ mask`; `none` when Output is not selected (no write issued). -/
def initialDriveOf (value : PinAttributes) (mask : Nat) : Option Nat :=
  if value.output then
    if value.initialOn then some (HIGH ^^^ mask)
    else some (LOW ^^^ mask)
  else none

/-- `GPIOPinDetail::setAttr`: assert the capability check and the conflict
check (each skipped for the reserved console indices 1 and 3), set
`_currentMode := value`, derive the pin-mode word from the Input/Output flag
and from the pull flags of `_attributes` and `value`, and, when Output is
selected, drive the initial level `(InitialOn ? HIGH : LOW) ^ _readWriteMask`
before `__pinMode` runs.  The updated pin and the hardware effect are
returned; an `Assert` failure returns the corresponding `attributeError`
with nothing mutated. -/
def GPIOPinDetail.setAttr (s : GPIOPinDetail) (value : PinAttributes) :
    Except PinError (GPIOPinDetail × SetAttrEffect) :=
  if ¬ (value.validateWith s.capabilities = true ∨ s.index = 1 ∨ s.index = 3) then
    Except.error (PinError.attributeError
      "The requested attributes do not match the pin capabilities")
  else if ¬ (s.attributes.conflictsWith value = false ∨ s.index = 1 ∨ s.index = 3) then
    Except.error (PinError.attributeError
      "Attributes on this pin have been set before, and there is a conflict.")
  else
    Except.ok ({ s with currentMode := value },
               { digitalWriteLevel := initialDriveOf value s.readWriteMask,
                 pinModeValue := pinModeValueOf s.attributes value })

/-- The pin state after a `setAttr` call: the updated state on success, the
unchanged state when the call failed (a thrown `Assert` leaves every field
as it was). -/
def GPIOPinDetail.applySetAttr (s : GPIOPinDetail) (value : PinAttributes) : GPIOPinDetail :=
  match s.setAttr value with
  | Except.ok (s2, _) => s2
  | Except.error _ => s

/-- The triple `attachInterruptArg(_index, callback, arg, mode)` passes to
the interrupt controller. -/
structure InterruptBinding (C A : Type) where
  index : Nat
  callback : C
  context : A
  mode : Int

/-- `GPIOPinDetail::attachInterrupt`: assert that `_currentMode` has the ISR
attribute, then bind callback, context and trigger mode for this index. -/
def GPIOPinDetail.attachInterrupt {C A : Type} (s : GPIOPinDetail) (callback : C) (arg : A)
    (mode : Int) : Except PinError (InterruptBinding C A) :=
  if s.currentMode.isr then
    Except.ok { index := s.index, callback := callback, context := arg, mode := mode }
  else
    Except.error (PinError.attributeError
      "Pin has no ISR attribute. Cannot bind ISR.")

/-- `GPIOPinDetail::detachInterrupt`: assert that `_currentMode` has the ISR
attribute, then unbind the interrupt of this index (the unbound index is
returned). -/
def GPIOPinDetail.detachInterrupt (s : GPIOPinDetail) : Except PinError Nat :=
  if s.currentMode.isr then
    Except.ok s.index
  else
    Except.error (PinError.attributeError
      "Pin has no ISR attribute. Cannot unbind ISR.")

/-- `GPIOPinDetail::toString`: `"GPIO." + _index`, a pure function of the
index alone. -/
def GPIOPinDetail.asString (s : GPIOPinDetail) : String :=
  "GPIO." ++ toString s.index

/-! ## Helper lemmas shared by the claim theorems -/

/-- A successful `setAttr` produces exactly the state with `currentMode`
replaced and the effect records built by `initialDriveOf`/`pinModeValueOf`. -/
lemma setAttr_ok_elim {s s2 : GPIOPinDetail} {v : PinAttributes} {eff : SetAttrEffect}
    (h : s.setAttr v = Except.ok (s2, eff)) :
    s2 = { s with currentMode := v } ∧
    eff = { digitalWriteLevel := initialDriveOf v s.readWriteMask,
            pinModeValue := pinModeValueOf s.attributes v } := by
  unfold GPIOPinDetail.setAttr at h
  by_cases h1 : ¬ (v.validateWith s.capabilities = true ∨ s.index = 1 ∨ s.index = 3)
  · rw [if_pos h1] at h
    cases h
  · rw [if_neg h1] at h
    by_cases h2 : ¬ (s.attributes.conflictsWith v = false ∨ s.index = 1 ∨ s.index = 3)
    · rw [if_pos h2] at h
      cases h
    · rw [if_neg h2] at h
      injection h with h
      cases h
      exact ⟨rfl, rfl⟩

/-- When both checks pass (or the index is a reserved console index),
`setAttr` succeeds with the expected state and effect. -/
lemma setAttr_ok_of (s : GPIOPinDetail) (v : PinAttributes)
    (h1 : v.validateWith s.capabilities = true ∨ s.index = 1 ∨ s.index = 3)
    (h2 : s.attributes.conflictsWith v = false ∨ s.index = 1 ∨ s.index = 3) :
    s.setAttr v = Except.ok ({ s with currentMode := v },
      { digitalWriteLevel := initialDriveOf v s.readWriteMask,
        pinModeValue := pinModeValueOf s.attributes v }) := by
  unfold GPIOPinDetail.setAttr
  rw [if_neg (not_not_intro h1), if_neg (not_not_intro h2)]

/-! ## Claim theorems -/

/-- C1: for every pin whose capability field is the capability-table entry
for its index, a `setAttr` request whose flags are not all within the
capabilities fails with an `AttributeError` and leaves the pin state — in
particular `currentMode` — unchanged, unless the index is one of the two
reserved console indices 1 and 3; at those two indices the capability check
(and the conflict check) is skipped, so `setAttr` succeeds on any request. -/
theorem setAttr_capability_check (s : GPIOPinDetail) (v : PinAttributes)
    (hcaps : s.capabilities = GetDefaultCapabilities s.index) :
    (s.index ≠ 1 → s.index ≠ 3 → v.validateWith (GetDefaultCapabilities s.index) = false →
      s.setAttr v = Except.error (PinError.attributeError
        "The requested attributes do not match the pin capabilities") ∧
      s.applySetAttr v = s ∧ (s.applySetAttr v).currentMode = s.currentMode) ∧
    (s.index = 1 ∨ s.index = 3 → ∃ s2 eff, s.setAttr v = Except.ok (s2, eff)) := by
  constructor
  · intro hne1 hne3 hval
    have hv : v.validateWith s.capabilities = false := by rw [hcaps]; exact hval
    have hcond : ¬ (v.validateWith s.capabilities = true ∨ s.index = 1 ∨ s.index = 3) := by
      simp [hv, hne1, hne3]
    have hset : s.setAttr v = Except.error (PinError.attributeError
        "The requested attributes do not match the pin capabilities") := by
      unfold GPIOPinDetail.setAttr
      rw [if_pos hcond]
    have happ : s.applySetAttr v = s := by
      unfold GPIOPinDetail.applySetAttr
      rw [hset]
    exact ⟨hset, happ, by rw [happ]⟩
  · intro h13
    exact ⟨_, _, setAttr_ok_of s v (Or.inr h13) (Or.inr h13)⟩

/-- C1 witness: pin 6 has no PullUp capability, so requesting PullUp on it
is rejected with the capability `AttributeError` and the state is kept. -/
theorem setAttr_capability_check_witness :
    ({ index := 6, capabilities := GetDefaultCapabilities 6,
       attributes := PinAttributes.noAttrs, currentMode := PinAttributes.noAttrs,
       readWriteMask := 0 } : GPIOPinDetail).setAttr
        { PinAttributes.noAttrs with pullUp := true } =
      Except.error (PinError.attributeError
        "The requested attributes do not match the pin capabilities") ∧
    ({ index := 6, capabilities := GetDefaultCapabilities 6,
       attributes := PinAttributes.noAttrs, currentMode := PinAttributes.noAttrs,
       readWriteMask := 0 } : GPIOPinDetail).applySetAttr
        { PinAttributes.noAttrs with pullUp := true } =
      { index := 6, capabilities := GetDefaultCapabilities 6,
        attributes := PinAttributes.noAttrs, currentMode := PinAttributes.noAttrs,
        readWriteMask := 0 } := by
  have h := (setAttr_capability_check
    { index := 6, capabilities := GetDefaultCapabilities 6,
      attributes := PinAttributes.noAttrs, currentMode := PinAttributes.noAttrs,
      readWriteMask := 0 }
    { PinAttributes.noAttrs with pullUp := true } rfl).1
    (by decide) (by decide) (by decide)
  exact ⟨h.1, h.2.1⟩

/-- C2: on a pin obtained by a successful construction and a successful
`setAttr` that put Output into `currentMode`, reading back the physical
level driven by `write v` yields `v` again for any value `v`: the
`readWriteMask` XOR applied on write cancels against the XOR applied on
read, for ActiveLow and default-polarity pins alike. -/
theorem write_read_roundtrip (i : Nat) (opts : List String) (s0 s1 : GPIOPinDetail)
    (m : PinAttributes) (eff : SetAttrEffect) (v p : Nat)
    (hc : GPIOPinDetail.construct i opts = Except.ok s0)
    (hm : s0.setAttr m = Except.ok (s1, eff))
    (ho : s1.currentMode.output = true)
    (hw : s1.write v = Except.ok p) :
    s1.read p = v := by
  have hp : s1.readWriteMask ^^^ v = p := by
    unfold GPIOPinDetail.write at hw
    rw [if_pos ho] at hw
    injection hw
  unfold GPIOPinDetail.read
  rw [← hp, Nat.xor_comm s1.readWriteMask v, Nat.xor_assoc, Nat.xor_self, Nat.xor_zero]

/-- C2 witness: pin 2 constructed with no options, `setAttr` Output, then
`write 1` drives level 1 and reading it back returns 1. -/
theorem write_read_roundtrip_witness :
    GPIOPinDetail.read
      { index := 2, capabilities := GetDefaultCapabilities 2,
        attributes := PinAttributes.noAttrs,
        currentMode := { PinAttributes.noAttrs with output := true },
        readWriteMask := 0 } 1 = 1 := by
  exact write_read_roundtrip 2 [] _ _
    { PinAttributes.noAttrs with output := true }
    { digitalWriteLevel := some 0, pinModeValue := 3 } 1 1 rfl (by decide) rfl (by decide)

/-- C5: `write value` fails with an `AttributeError` whenever `currentMode`
lacks the Output attribute; when Output is present it succeeds and drives
the physical line to `value XOR readWriteMask`. -/
theorem write_requires_output (s : GPIOPinDetail) (v : Nat) :
    (s.currentMode.output = false →
      s.write v = Except.error (PinError.attributeError
        "Pin has no output attribute defined. Cannot write to it.")) ∧
    (s.currentMode.output = true → s.write v = Except.ok (v ^^^ s.readWriteMask)) := by
  constructor
  · intro h
    unfold GPIOPinDetail.write
    rw [if_neg (by simp [h])]
  · intro h
    unfold GPIOPinDetail.write
    rw [if_pos h, Nat.xor_comm]

/-- C5 witness: a freshly constructed pin (Output not yet in `currentMode`)
rejects `write`, and the same pin with Output active drives the requested
level. -/
theorem write_requires_output_witness :
    ({ index := 2, capabilities := GetDefaultCapabilities 2,
       attributes := PinAttributes.noAttrs, currentMode := PinAttributes.noAttrs,
       readWriteMask := 0 } : GPIOPinDetail).write 1 =
      Except.error (PinError.attributeError
        "Pin has no output attribute defined. Cannot write to it.") ∧
    ({ index := 2, capabilities := GetDefaultCapabilities 2,
       attributes := PinAttributes.noAttrs,
       currentMode := { PinAttributes.noAttrs with output := true },
       readWriteMask := 1 } : GPIOPinDetail).write 1 = Except.ok (1 ^^^ 1) := by
  constructor
  · exact (write_requires_output _ 1).1 (by decide)
  · exact (write_requires_output _ 1).2 (by decide)

/-- The indices that appear as `case` labels in `GetDefaultCapabilities`. -/
def mappedIndices : List Nat :=
  [0, 1, 2, 3, 4, 5, 6, 7, 8, 9, 10, 11, 12, 13, 14, 15, 16, 17, 18, 19,
   21, 22, 23, 25, 26, 27, 29, 32, 33, 34, 35, 36, 39]

/-- C3: every index outside the hardware-mapped ranges has capability set
`None`, and constructing a native pin there fails with the
`ConfigurationError` "Bad GPIO number"; the constructor performs no hardware
call at all (the embedding returns hardware effects explicitly, and the
failing constructor returns only the error). -/
theorem unmapped_index_rejected (i : Nat) (opts : List String)
    (h : i ∉ mappedIndices) :
    GetDefaultCapabilities i = PinCapabilities.noCaps ∧
    GPIOPinDetail.construct i opts =
      Except.error (PinError.configurationError "Bad GPIO number") := by
  simp only [mappedIndices, List.mem_cons, List.not_mem_nil, or_false, not_or] at h
  obtain ⟨h0, h1, h2, h3, h4, h5, h6, h7, h8, h9, h10, h11, h12, h13, h14, h15, h16, h17,
    h18, h19, h21, h22, h23, h25, h26, h27, h29, h32, h33, h34, h35, h36, h39⟩ := h
  have hc : GetDefaultCapabilities i = PinCapabilities.noCaps := by
    unfold GetDefaultCapabilities
    simp [h0, h1, h2, h3, h4, h5, h6, h7, h8, h9, h10, h11, h12, h13, h14, h15, h16, h17,
      h18, h19, h21, h22, h23, h25, h26, h27, h29, h32, h33, h34, h35, h36, h39]
  refine ⟨hc, ?_⟩
  unfold GPIOPinDetail.construct
  simp [hc]

/-- C3 witness: index 40 is unmapped, its capabilities are `None`, and
construction there fails with "Bad GPIO number". -/
theorem unmapped_index_rejected_witness :
    GetDefaultCapabilities 40 = PinCapabilities.noCaps ∧
    GPIOPinDetail.construct 40 [] =
      Except.error (PinError.configurationError "Bad GPIO number") := by
  exact unmapped_index_rejected 40 [] (by decide)

/-- In any option list containing an invalid token, the option fold fails
with the "Bad GPIO option" message naming the pin index and the first
invalid token, whatever attributes were accumulated so far. -/
lemma foldOptions_invalid_mem (i : Nat) (t : String)
    (hbad : ¬ (t = "pu" ∨ t = "pd" ∨ t = "low" ∨ t = "high")) :
    ∀ (opts : List String) (a : PinAttributes), t ∈ opts →
      ∃ t2, t2 ∈ opts ∧ ¬ (t2 = "pu" ∨ t2 = "pd" ∨ t2 = "low" ∨ t2 = "high") ∧
        foldOptions i a opts = Except.error (PinError.configurationError
          ("Bad GPIO option passed to pin " ++ toString i ++ ": " ++ t2)) := by
  intro opts
  induction opts with
  | nil =>
    intro a hmem
    cases hmem
  | cons hd rest ih =>
    intro a hmem
    by_cases hv : hd = "pu" ∨ hd = "pd" ∨ hd = "low" ∨ hd = "high"
    · have htr : t ∈ rest := by
        rcases List.mem_cons.mp hmem with he | he
        · exact absurd (he ▸ hv) hbad
        · exact he
      rcases hv with h | h | h | h
      · subst h
        obtain ⟨t2, m2, b2, e2⟩ := ih { a with pullUp := true } htr
        refine ⟨t2, List.mem_cons_of_mem _ m2, b2, ?_⟩
        simp only [foldOptions]
        simpa using e2
      · subst h
        obtain ⟨t2, m2, b2, e2⟩ := ih { a with pullDown := true } htr
        refine ⟨t2, List.mem_cons_of_mem _ m2, b2, ?_⟩
        simp only [foldOptions]
        simpa using e2
      · subst h
        obtain ⟨t2, m2, b2, e2⟩ := ih { a with activeLow := true } htr
        refine ⟨t2, List.mem_cons_of_mem _ m2, b2, ?_⟩
        simp only [foldOptions]
        simpa using e2
      · subst h
        obtain ⟨t2, m2, b2, e2⟩ := ih a htr
        refine ⟨t2, List.mem_cons_of_mem _ m2, b2, ?_⟩
        simp only [foldOptions]
        simpa using e2
    · push_neg at hv
      obtain ⟨n1, n2, n3, n4⟩ := hv
      refine ⟨hd, List.mem_cons_self hd rest, by simp [n1, n2, n3, n4], ?_⟩
      simp only [foldOptions]
      rw [if_neg n1, if_neg n2, if_neg n3, if_neg n4]

/-- C4: during construction the option tokens fold into the accumulated
attributes as pu→PullUp, pd→PullDown, low→ActiveLow, high→no-op; any other
token aborts the fold with a `ConfigurationError` whose message names the
pin index and the offending token, and on a mapped index the whole
construction fails with that same kind of error for some offending token of
the list, so no pin value is produced (and, the embedding returning hardware
effects explicitly, no hardware state is touched). -/
theorem option_token_folding (i : Nat) (a : PinAttributes) (t : String)
    (rest opts : List String) :
    (foldOptions i a ("pu" :: rest) = foldOptions i { a with pullUp := true } rest) ∧
    (foldOptions i a ("pd" :: rest) = foldOptions i { a with pullDown := true } rest) ∧
    (foldOptions i a ("low" :: rest) = foldOptions i { a with activeLow := true } rest) ∧
    (foldOptions i a ("high" :: rest) = foldOptions i a rest) ∧
    (¬ (t = "pu" ∨ t = "pd" ∨ t = "low" ∨ t = "high") →
      foldOptions i a (t :: rest) = Except.error (PinError.configurationError
        ("Bad GPIO option passed to pin " ++ toString i ++ ": " ++ t)) ∧
      (t ∈ opts → GetDefaultCapabilities i ≠ PinCapabilities.noCaps →
        ∃ t2, t2 ∈ opts ∧ ¬ (t2 = "pu" ∨ t2 = "pd" ∨ t2 = "low" ∨ t2 = "high") ∧
          GPIOPinDetail.construct i opts = Except.error (PinError.configurationError
            ("Bad GPIO option passed to pin " ++ toString i ++ ": " ++ t2)))) := by
  refine ⟨?_, ?_, ?_, ?_, ?_⟩
  · simp only [foldOptions]
    simp
  · simp only [foldOptions]
    simp
  · simp only [foldOptions]
    simp
  · simp only [foldOptions]
    simp
  · intro hbad
    push_neg at hbad
    obtain ⟨n1, n2, n3, n4⟩ := hbad
    constructor
    · simp only [foldOptions]
      rw [if_neg n1, if_neg n2, if_neg n3, if_neg n4]
    · intro hmem hne
      obtain ⟨t2, m2, b2, e2⟩ :=
        foldOptions_invalid_mem i t (by simp [n1, n2, n3, n4]) opts PinAttributes.noAttrs hmem
      refine ⟨t2, m2, b2, ?_⟩
      unfold GPIOPinDetail.construct
      rw [if_neg hne, e2]

/-- C4 witness: on pin 2, the token list ["pu", "qq"] folds "pu" into
PullUp and then fails on "qq" with the message naming pin 2 and "qq", and
construction with these options fails the same way. -/
theorem option_token_folding_witness :
    foldOptions 2 { PinAttributes.noAttrs with pullUp := true } ["qq"] =
      Except.error (PinError.configurationError
        ("Bad GPIO option passed to pin " ++ toString 2 ++ ": " ++ "qq")) ∧
    (∃ t2, t2 ∈ ["pu", "qq"] ∧ ¬ (t2 = "pu" ∨ t2 = "pd" ∨ t2 = "low" ∨ t2 = "high") ∧
      GPIOPinDetail.construct 2 ["pu", "qq"] = Except.error (PinError.configurationError
        ("Bad GPIO option passed to pin " ++ toString 2 ++ ": " ++ t2))) := by
  have h := (option_token_folding 2 { PinAttributes.noAttrs with pullUp := true } "qq"
    [] ["pu", "qq"]).2.2.2.2 (by decide)
  exact ⟨h.1, h.2 (by decide) (by decide)⟩

/-- C6 counterexample: constructing index 26 with options ["low"] gives
readWriteMask = HIGH, and `setAttr` with Output (no InitialOn) then drives
the physical line to `LOW ^ HIGH = HIGH` — the hardware receives a HIGH
level, not the LOW level the claim states. -/
theorem setAttr_activeLow_drive_cex :
    (match GPIOPinDetail.construct 26 ["low"] with
     | Except.ok s =>
       match s.setAttr { PinAttributes.noAttrs with output := true } with
       | Except.ok (_, eff) => eff.digitalWriteLevel
       | Except.error _ => none
     | Except.error _ => none) = some HIGH ∧ HIGH ≠ LOW := by
  exact ⟨rfl, by decide⟩

/-- C6 (amended): when a successful `setAttr` call's requested set includes
Output, the call drives the physical pin, before returning, to the level
(HIGH if InitialOn is requested, else LOW) XOR readWriteMask; in particular
for a pin with readWriteMask = HIGH (constructed with options ["low"]) and a
request with Output and without InitialOn, the hardware receives a HIGH
level. -/
theorem setAttr_output_initial_drive (s s2 : GPIOPinDetail) (v : PinAttributes)
    (eff : SetAttrEffect) (h : s.setAttr v = Except.ok (s2, eff)) (ho : v.output = true) :
    eff.digitalWriteLevel =
      some ((if v.initialOn = true then HIGH else LOW) ^^^ s.readWriteMask) ∧
    (s.readWriteMask = HIGH → v.initialOn = false → eff.digitalWriteLevel = some HIGH) := by
  obtain ⟨_, heff⟩ := setAttr_ok_elim h
  subst heff
  constructor
  · cases hio : v.initialOn <;> simp [initialDriveOf, ho, hio]
  · intro hm hio
    simp [initialDriveOf, ho, hio, hm]
    decide

/-- C6 witness: on the concrete ActiveLow pin 26, the successful
`setAttr` Output call drives level 1 = HIGH. -/
theorem setAttr_output_initial_drive_witness :
    ({ digitalWriteLevel := some 1, pinModeValue := 3 } : SetAttrEffect).digitalWriteLevel =
      some HIGH := by
  exact (setAttr_output_initial_drive
    { index := 26, capabilities := GetDefaultCapabilities 26,
      attributes := { PinAttributes.noAttrs with activeLow := true },
      currentMode := PinAttributes.noAttrs, readWriteMask := HIGH }
    { index := 26, capabilities := GetDefaultCapabilities 26,
      attributes := { PinAttributes.noAttrs with activeLow := true },
      currentMode := { PinAttributes.noAttrs with output := true },
      readWriteMask := HIGH }
    { PinAttributes.noAttrs with output := true }
    { digitalWriteLevel := some 1, pinModeValue := 3 }
    (by decide) rfl).2 rfl rfl

/-- C7: a request whose flags pair Input against accumulated Output (either
direction) or PullUp against accumulated PullDown (either direction)
conflicts; on any pin whose index is not a reserved console index, a
conflicting request makes `setAttr` fail with an `AttributeError`; at the
reserved console indices 1 and 3 the conflict check (like the capability
check) is skipped and `setAttr` succeeds. -/
theorem setAttr_conflict_check (s : GPIOPinDetail) (v : PinAttributes) :
    ((s.attributes.input = true ∧ v.output = true) ∨
     (s.attributes.output = true ∧ v.input = true) ∨
     (s.attributes.pullUp = true ∧ v.pullDown = true) ∨
     (s.attributes.pullDown = true ∧ v.pullUp = true) →
      s.attributes.conflictsWith v = true) ∧
    (s.index ≠ 1 → s.index ≠ 3 → s.attributes.conflictsWith v = true →
      ∃ msg, s.setAttr v = Except.error (PinError.attributeError msg)) ∧
    ((s.index = 1 ∨ s.index = 3) → ∃ r, s.setAttr v = Except.ok r) := by
  refine ⟨?_, ?_, ?_⟩
  · intro h
    unfold PinAttributes.conflictsWith
    rcases h with ⟨h1, h2⟩ | ⟨h1, h2⟩ | ⟨h1, h2⟩ | ⟨h1, h2⟩ <;> simp [h1, h2]
  · intro hne1 hne3 hconf
    by_cases hval : v.validateWith s.capabilities = true
    · refine ⟨"Attributes on this pin have been set before, and there is a conflict.", ?_⟩
      unfold GPIOPinDetail.setAttr
      rw [if_neg (not_not_intro (Or.inl hval)), if_pos (by simp [hconf, hne1, hne3])]
    · refine ⟨"The requested attributes do not match the pin capabilities", ?_⟩
      unfold GPIOPinDetail.setAttr
      rw [if_pos (by simp [hval, hne1, hne3])]
  · intro h13
    exact ⟨_, setAttr_ok_of s v (Or.inr h13) (Or.inr h13)⟩

/-- C7 witness: a pin 2 whose construction options accumulated PullUp
rejects a request for PullDown with an `AttributeError`. -/
theorem setAttr_conflict_check_witness :
    ∃ msg, ({ index := 2, capabilities := GetDefaultCapabilities 2,
              attributes := { PinAttributes.noAttrs with pullUp := true },
              currentMode := PinAttributes.noAttrs,
              readWriteMask := 0 } : GPIOPinDetail).setAttr
        { PinAttributes.noAttrs with pullDown := true } =
      Except.error (PinError.attributeError msg) := by
  exact (setAttr_conflict_check
    { index := 2, capabilities := GetDefaultCapabilities 2,
      attributes := { PinAttributes.noAttrs with pullUp := true },
      currentMode := PinAttributes.noAttrs, readWriteMask := 0 }
    { PinAttributes.noAttrs with pullDown := true }).2.1
    (by decide) (by decide) (by decide)

/-- C8: `attachInterrupt` and `detachInterrupt` each fail with an
`AttributeError` while `currentMode` lacks the ISR attribute; after a
successful `setAttr` whose requested set includes ISR, `attachInterrupt`
succeeds and hands the callback, context and trigger mode for this pin
index to the interrupt controller. -/
theorem interrupt_requires_isr (C A : Type) (s s2 : GPIOPinDetail) (v : PinAttributes)
    (eff : SetAttrEffect) (cb : C) (arg : A) (mode : Int) :
    (s.currentMode.isr = false →
      s.attachInterrupt cb arg mode = Except.error (PinError.attributeError
        "Pin has no ISR attribute. Cannot bind ISR.") ∧
      s.detachInterrupt = Except.error (PinError.attributeError
        "Pin has no ISR attribute. Cannot unbind ISR.")) ∧
    (s.setAttr v = Except.ok (s2, eff) → v.isr = true →
      s2.attachInterrupt cb arg mode =
        Except.ok { index := s2.index, callback := cb, context := arg, mode := mode }) := by
  constructor
  · intro h
    constructor
    · unfold GPIOPinDetail.attachInterrupt
      rw [if_neg (by simp [h])]
    · unfold GPIOPinDetail.detachInterrupt
      rw [if_neg (by simp [h])]
  · intro h hisr
    obtain ⟨hs2, _⟩ := setAttr_ok_elim h
    subst hs2
    simp [GPIOPinDetail.attachInterrupt, hisr]

/-- C8 witness: a freshly constructed pin 2 rejects `attachInterrupt`, and
after `setAttr` with ISR the same pin binds callback 7, context 8, trigger
mode 2. -/
theorem interrupt_requires_isr_witness :
    ({ index := 2, capabilities := GetDefaultCapabilities 2,
       attributes := PinAttributes.noAttrs, currentMode := PinAttributes.noAttrs,
       readWriteMask := 0 } : GPIOPinDetail).attachInterrupt (7 : Nat) (8 : Nat) 2 =
      Except.error (PinError.attributeError
        "Pin has no ISR attribute. Cannot bind ISR.") ∧
    ({ index := 2, capabilities := GetDefaultCapabilities 2,
       attributes := PinAttributes.noAttrs,
       currentMode := { PinAttributes.noAttrs with isr := true },
       readWriteMask := 0 } : GPIOPinDetail).attachInterrupt (7 : Nat) (8 : Nat) 2 =
      Except.ok { index := 2, callback := 7, context := 8, mode := 2 } := by
  constructor
  · exact ((interrupt_requires_isr Nat Nat
      { index := 2, capabilities := GetDefaultCapabilities 2,
        attributes := PinAttributes.noAttrs, currentMode := PinAttributes.noAttrs,
        readWriteMask := 0 }
      { index := 2, capabilities := GetDefaultCapabilities 2,
        attributes := PinAttributes.noAttrs, currentMode := PinAttributes.noAttrs,
        readWriteMask := 0 }
      PinAttributes.noAttrs { digitalWriteLevel := none, pinModeValue := 0 }
      7 8 2).1 rfl).1
  · exact (interrupt_requires_isr Nat Nat
      { index := 2, capabilities := GetDefaultCapabilities 2,
        attributes := PinAttributes.noAttrs, currentMode := PinAttributes.noAttrs,
        readWriteMask := 0 }
      { index := 2, capabilities := GetDefaultCapabilities 2,
        attributes := PinAttributes.noAttrs,
        currentMode := { PinAttributes.noAttrs with isr := true },
        readWriteMask := 0 }
      { PinAttributes.noAttrs with isr := true }
      { digitalWriteLevel := none, pinModeValue := 0 }
      7 8 2).2 (by decide) rfl

/-- C9 counterexample: pin 26 constructed without options has accumulated
attribute set None; `setAttr` with Output succeeds, yet `attributes()` on
the resulting pin still returns None, not the requested set. -/
theorem attributes_after_setAttr_cex :
    (match GPIOPinDetail.construct 26 [] with
     | Except.ok s =>
       match s.setAttr { PinAttributes.noAttrs with output := true } with
       | Except.ok (s2, _) => some s2.attributes
       | Except.error _ => none
     | Except.error _ => none) = some PinAttributes.noAttrs ∧
    PinAttributes.noAttrs ≠ { PinAttributes.noAttrs with output := true } := by
  exact ⟨rfl, by decide⟩

/-- C9 (amended): `attributes()` returns the construction-time
option-derived attribute set, which a successful `setAttr` leaves untouched;
it is `currentMode`, not `attributes()`, that holds the last successfully
applied usage configuration. -/
theorem attributes_fixed_under_setAttr (s s2 : GPIOPinDetail) (v : PinAttributes)
    (eff : SetAttrEffect) (h : s.setAttr v = Except.ok (s2, eff)) :
    s2.attributes = s.attributes ∧ s2.currentMode = v := by
  obtain ⟨hs2, _⟩ := setAttr_ok_elim h
  subst hs2
  exact ⟨rfl, rfl⟩

/-- C9 witness: after a successful `setAttr` Output on pin 26, the
accumulated attributes are still None while `currentMode` is the request. -/
theorem attributes_fixed_under_setAttr_witness :
    ({ index := 26, capabilities := GetDefaultCapabilities 26,
       attributes := PinAttributes.noAttrs,
       currentMode := { PinAttributes.noAttrs with output := true },
       readWriteMask := 0 } : GPIOPinDetail).attributes = PinAttributes.noAttrs ∧
    ({ index := 26, capabilities := GetDefaultCapabilities 26,
       attributes := PinAttributes.noAttrs,
       currentMode := { PinAttributes.noAttrs with output := true },
       readWriteMask := 0 } : GPIOPinDetail).currentMode =
      { PinAttributes.noAttrs with output := true } := by
  exact attributes_fixed_under_setAttr
    { index := 26, capabilities := GetDefaultCapabilities 26,
      attributes := PinAttributes.noAttrs, currentMode := PinAttributes.noAttrs,
      readWriteMask := 0 }
    { index := 26, capabilities := GetDefaultCapabilities 26,
      attributes := PinAttributes.noAttrs,
      currentMode := { PinAttributes.noAttrs with output := true },
      readWriteMask := 0 }
    { PinAttributes.noAttrs with output := true }
    { digitalWriteLevel := some 0, pinModeValue := 3 } (by decide)

/-- C10: the accumulated attribute field the conflict check consults is
fixed at construction: a successful `setAttr` changes only `currentMode`
(the read-only methods return no modified state at all), so a second
`setAttr` is checked against the construction-time attributes only, and it
succeeds whenever its request is within capabilities and free of conflict
with those construction-time attributes — even when it conflicts with the
previous `setAttr` request. -/
theorem conflict_base_fixed_at_construction (s s1 : GPIOPinDetail)
    (v1 v2 : PinAttributes) (e1 : SetAttrEffect)
    (h : s.setAttr v1 = Except.ok (s1, e1)) :
    s1.attributes = s.attributes ∧ s1.capabilities = s.capabilities ∧
    s1.index = s.index ∧ s1.readWriteMask = s.readWriteMask ∧
    (v2.validateWith s.capabilities = true → s.attributes.conflictsWith v2 = false →
      s1.setAttr v2 = Except.ok ({ s1 with currentMode := v2 },
        { digitalWriteLevel := initialDriveOf v2 s1.readWriteMask,
          pinModeValue := pinModeValueOf s1.attributes v2 })) := by
  obtain ⟨hs1, _⟩ := setAttr_ok_elim h
  subst hs1
  refine ⟨rfl, rfl, rfl, rfl, ?_⟩
  intro hval hconf
  exact setAttr_ok_of _ v2 (Or.inl hval) (Or.inl hconf)

/-- C10 witness: on pin 2 (constructed with no options), `setAttr` Input
succeeds and then `setAttr` Output also succeeds, although Input and Output
requests conflict with each other — neither conflicts with the empty
construction-time attributes. -/
theorem conflict_base_fixed_at_construction_witness :
    ({ PinAttributes.noAttrs with input := true } : PinAttributes).conflictsWith
      { PinAttributes.noAttrs with output := true } = true ∧
    ({ index := 2, capabilities := GetDefaultCapabilities 2,
       attributes := PinAttributes.noAttrs,
       currentMode := { PinAttributes.noAttrs with input := true },
       readWriteMask := 0 } : GPIOPinDetail).setAttr
        { PinAttributes.noAttrs with output := true } =
      Except.ok ({ index := 2, capabilities := GetDefaultCapabilities 2,
                   attributes := PinAttributes.noAttrs,
                   currentMode := { PinAttributes.noAttrs with output := true },
                   readWriteMask := 0 },
                 { digitalWriteLevel := initialDriveOf
                     { PinAttributes.noAttrs with output := true } 0,
                   pinModeValue := pinModeValueOf PinAttributes.noAttrs
                     { PinAttributes.noAttrs with output := true } }) := by
  constructor
  · decide
  · exact (conflict_base_fixed_at_construction
      { index := 2, capabilities := GetDefaultCapabilities 2,
        attributes := PinAttributes.noAttrs, currentMode := PinAttributes.noAttrs,
        readWriteMask := 0 }
      { index := 2, capabilities := GetDefaultCapabilities 2,
        attributes := PinAttributes.noAttrs,
        currentMode := { PinAttributes.noAttrs with input := true },
        readWriteMask := 0 }
      { PinAttributes.noAttrs with input := true }
      { PinAttributes.noAttrs with output := true }
      { digitalWriteLevel := none, pinModeValue := 1 }
      (by decide)).2.2.2.2 (by decide) (by decide)

end Pins
